import Mathlib

/-!
Verification of the Hyperliquid seed-trade helper script
(`hl_seed_trade.py`): a shallow embedding of its response classifier,
its three actions, and its argument parsing, with theorems about the
normalized result envelopes it produces.

Python dictionaries are modelled as association lists with string keys;
the rendering `pyStr` models the Python `str()` of such values (string
escaping inside `repr` is not modelled, since no value handled by the
script contains quote characters).
-/

namespace HL

/-- Values of the Python fragment the script manipulates: strings, lists,
and string-keyed dictionaries. These are the shapes appearing in exchange
responses and in the result envelopes built by the script. -/
inductive PyVal where
  | str : String → PyVal
  | list : List PyVal → PyVal
  | dict : List (String × PyVal) → PyVal

/-- Comma-space separated join, as Python uses when rendering containers. -/
def joinComma : List String → String
  | [] => ""
  | [x] => x
  | x :: xs => x ++ ", " ++ joinComma xs

mutual

/-- Python repr of a value: strings quoted, lists bracketed, dicts braced. -/
def pyRepr : PyVal → String
  | .str s => "\x27" ++ s ++ "\x27"
  | .list xs => "[" ++ joinComma (pyReprList xs) ++ "]"
  | .dict kvs => "\x7b" ++ joinComma (pyReprDict kvs) ++ "\x7d"

/-- repr of each element of a list. -/
def pyReprList : List PyVal → List String
  | [] => []
  | x :: xs => pyRepr x :: pyReprList xs

/-- repr of each key-value pair of a dict. -/
def pyReprDict : List (String × PyVal) → List String
  | [] => []
  | (k, v) :: kvs => ("\x27" ++ k ++ "\x27: " ++ pyRepr v) :: pyReprDict kvs

end

/-- Python str of a value: a bare string renders without quotes, containers
render as their repr. -/
def pyStr : PyVal → String
  | .str s => s
  | v => pyRepr v

/-- Python truthiness of the values we model: containers and strings are
truthy when nonempty. -/
def pyTruthy : PyVal → Bool
  | .str s => !s.isEmpty
  | .list xs => !xs.isEmpty
  | .dict kvs => !kvs.isEmpty

/-- Python `v.get(k)`: on a dict, the looked-up value or None; on any other
value an AttributeError is raised. -/
def pyGet (v : PyVal) (k : String) : Except String (Option PyVal) :=
  match v with
  | .dict kvs => .ok (kvs.lookup k)
  | _ => .error "AttributeError"

/-- Python `v.get(k, d)`: on a dict, the looked-up value or the default; on
any other value an AttributeError is raised. -/
def pyGetD (v : PyVal) (k : String) (d : PyVal) : Except String PyVal :=
  match v with
  | .dict kvs => .ok ((kvs.lookup k).getD d)
  | _ => .error "AttributeError"

/-- Python `v[k]` with a string key: dict lookup, KeyError when absent,
TypeError on non-dict receivers. -/
def pyGetItem (v : PyVal) (k : String) : Except String PyVal :=
  match v with
  | .dict kvs =>
    match kvs.lookup k with
    | some x => .ok x
    | none => .error "KeyError"
  | _ => .error "TypeError"

/-- Python equality of a value with the string k (strings compare by
content, other types are never equal to a string). -/
def pyStrElem (k : String) : PyVal → Bool
  | .str s => s == k
  | _ => false

/-- Python `k in v` for a string k: substring test on strings, element
test on lists, key test on dicts. -/
def pyIn (k : String) : PyVal → Bool
  | .str s => decide (k.data <:+: s.data)
  | .list xs => xs.any (pyStrElem k)
  | .dict kvs => (kvs.lookup k).isSome

/-- Python `v[0]`: head of a list, first character of a string, KeyError
on dicts (our dict keys are strings, so an integer key is never present);
IndexError on empty sequences. -/
def pyIndex0 : PyVal → Except String PyVal
  | .list (x :: _) => .ok x
  | .list [] => .error "IndexError"
  | .str s =>
    match s.data with
    | c :: _ => .ok (.str (String.mk [c]))
    | [] => .error "IndexError"
  | .dict _ => .error "KeyError"

/-- Python `x == "ok"` applied to the result of a `.get("status")` call:
true exactly when the value is present and is the string ok. -/
def isOkStatus : Option PyVal → Bool
  | some (.str s) => s == "ok"
  | _ => false

/-- Branch taken by parse_order_result once a first status entry exists:
the filled, resting, error chain, with the fallthrough no_fill case
rendering the whole statuses value. -/
def classifyFirst (first : PyVal) (statuses : PyVal) : Except String PyVal :=
  if pyIn "filled" first then
    match pyGetItem first "filled" with
    | .error e => .error e
    | .ok fill =>
      match pyGetD fill "avgPx" (.str "0") with
      | .error e => .error e
      | .ok avg =>
        match pyGetD fill "totalSz" (.str "0") with
        | .error e => .error e
        | .ok tot =>
          .ok (.dict [("status", .str "filled"), ("avg_price", avg), ("total_size", tot)])
  else if pyIn "resting" first then
    .ok (.dict [("status", .str "resting"), ("detail", .str (pyStr first))])
  else if pyIn "error" first then
    match pyGetItem first "error" with
    | .error e => .error e
    | .ok err =>
      .ok (.dict [("status", .str "error"), ("step", .str "order_rejected"), ("detail", err)])
  else
    .ok (.dict [("status", .str "no_fill"), ("detail", .str (pyStr statuses))])

/-- The if/elif chain of parse_order_result over the statuses value: each
guard is `statuses and <key> in statuses[0]`, the final else renders
str(statuses) as the no_fill detail. -/
def classifyStatuses (statuses : PyVal) : Except String PyVal :=
  if pyTruthy statuses then
    match pyIndex0 statuses with
    | .error e => .error e
    | .ok first => classifyFirst first statuses
  else
    .ok (.dict [("status", .str "no_fill"), ("detail", .str (pyStr statuses))])

/-- Extraction `order_result.get("response", \x7b\x7d).get("data", \x7b\x7d)
.get("statuses", [])` from the classifier. -/
def getStatuses (order_result : PyVal) : Except String PyVal :=
  match pyGetD order_result "response" (.dict []) with
  | .error e => .error e
  | .ok response =>
    match pyGetD response "data" (.dict []) with
    | .error e => .error e
    | .ok data => pyGetD data "statuses" (.list [])

/-- parse_order_result from the script: top-level status ok leads into the
statuses classification, anything else is reported as a place_order error
carrying str(order_result). A raised exception surfaces as err. -/
def parse_order_result (order_result : PyVal) : Except String PyVal :=
  match pyGet order_result "status" with
  | .error e => .error e
  | .ok st =>
    if isOkStatus st then
      match getStatuses order_result with
      | .error e => .error e
      | .ok statuses => classifyStatuses statuses
    else
      .ok (.dict [("status", .str "error"), ("step", .str "place_order"),
        ("detail", .str (pyStr order_result))])

/-- Character-wise lowercase of a string, the model of the Python lower
method on the ASCII flag values the script receives. -/
def strLower (s : String) : String :=
  String.mk (s.data.map Char.toLower)

/-- The argparse converter of the side flag: absent means True, a supplied
string is lowered and compared with the literal text true. -/
def parseIsBuy : Option String → Bool
  | none => true
  | some s => strLower s == "true"

/-- The two remote calls an action can issue. -/
inductive ExCall where
  | updateLeverage : ExCall
  | placeOrder : ExCall
deriving DecidableEq

/-- Oracle for the exchange client: construction and each remote call
either returns a response value or raises an exception, modelled by the
stringified exception text. -/
structure ExchangeOracle where
  construct : Except String Unit
  update_leverage : Except String PyVal
  order : Except String PyVal

/-- Result envelope for a caught exception in do_seed_trade and
do_close_position. -/
def excResult (e : String) : PyVal :=
  .dict [("status", .str "error"), ("step", .str "exception"), ("detail", .str e)]

/-- do_set_leverage from the script: build the client, call
update_leverage, report ok on an ok status and an error envelope without
a step field otherwise; exceptions are caught into the same shape. The
second component lists the remote calls attempted. -/
def do_set_leverage (ex : ExchangeOracle) : PyVal × List ExCall :=
  match ex.construct with
  | .error e => (.dict [("status", .str "error"), ("detail", .str e)], [])
  | .ok _ =>
    match ex.update_leverage with
    | .error e => (.dict [("status", .str "error"), ("detail", .str e)], [.updateLeverage])
    | .ok result =>
      match pyGet result "status" with
      | .error e => (.dict [("status", .str "error"), ("detail", .str e)], [.updateLeverage])
      | .ok st =>
        if isOkStatus st then
          (.dict [("status", .str "ok")], [.updateLeverage])
        else
          (.dict [("status", .str "error"), ("detail", .str (pyStr result))], [.updateLeverage])

/-- do_seed_trade from the script: build the client, update leverage, abort
with a set_leverage error envelope when the leverage response status is
not ok, otherwise place the order and classify its response; every
exception is caught into a step exception envelope. The second component
lists the remote calls attempted. -/
def do_seed_trade (ex : ExchangeOracle) : PyVal × List ExCall :=
  match ex.construct with
  | .error e => (excResult e, [])
  | .ok _ =>
    match ex.update_leverage with
    | .error e => (excResult e, [.updateLeverage])
    | .ok lev_result =>
      match pyGet lev_result "status" with
      | .error e => (excResult e, [.updateLeverage])
      | .ok st =>
        if isOkStatus st then
          match ex.order with
          | .error e => (excResult e, [.updateLeverage, .placeOrder])
          | .ok order_result =>
            match parse_order_result order_result with
            | .error e => (excResult e, [.updateLeverage, .placeOrder])
            | .ok r => (r, [.updateLeverage, .placeOrder])
        else
          (.dict [("status", .str "error"), ("step", .str "set_leverage"),
            ("detail", .str (pyStr lev_result))], [.updateLeverage])

/-- do_close_position from the script: build the client, place the order,
classify its response; every exception is caught into a step exception
envelope. The second component lists the remote calls attempted. -/
def do_close_position (ex : ExchangeOracle) : PyVal × List ExCall :=
  match ex.construct with
  | .error e => (excResult e, [])
  | .ok _ =>
    match ex.order with
    | .error e => (excResult e, [.placeOrder])
    | .ok order_result =>
      match parse_order_result order_result with
      | .error e => (excResult e, [.placeOrder])
      | .ok r => (r, [.placeOrder])

/-- The verdict of a classification outcome: the status tag of the result
envelope, together with the step tag when one is present, so the five
outcomes read filled, resting, error/order_rejected, no_fill,
error/place_order. -/
def verdict : Except String PyVal → Option String
  | .ok (.dict kvs) =>
    match kvs.lookup "status", kvs.lookup "step" with
    | some (.str s), some (.str t) => some (s ++ "/" ++ t)
    | some (.str s), _ => some s
    | _, _ => none
  | _ => none

/-- The status comparison with ok succeeds exactly on the string ok. -/
theorem isOkStatus_eq_true_iff (st : Option PyVal) :
    isOkStatus st = true ↔ st = some (.str "ok") := by
  cases st with
  | none => simp [isOkStatus]
  | some v => cases v <;> simp [isOkStatus]

/-- Claim C2 counterexample: the claim asserts that any string other than
true yields buy-side, but the converter maps the string banana, which is
neither true nor false, to sell-side. -/
theorem is_buy_other_string_refuted : parseIsBuy (some "banana") = false := by decide

/-- Claim C2 (amended): omitting the side flag yields buy-side; the
literal text false in any letter case yields sell-side; any string whose
lowercase form differs from true yields sell-side; and any letter case of
true yields buy-side. -/
theorem is_buy_flag_semantics :
    parseIsBuy none = true ∧
    (∀ s : String, strLower s = "false" → parseIsBuy (some s) = false) ∧
    (∀ s : String, strLower s ≠ "true" → parseIsBuy (some s) = false) ∧
    (∀ s : String, strLower s = "true" → parseIsBuy (some s) = true) := by
  refine ⟨rfl, ?_, ?_, ?_⟩
  · intro s h
    simp [parseIsBuy, h]
  · intro s h
    simp [parseIsBuy, h]
  · intro s h
    simp [parseIsBuy, h]

/-- Claim C2 witness: the amended side flag semantics at the default, an
upper case false, an unrelated string and a mixed case true. -/
theorem is_buy_flag_semantics_app :
    parseIsBuy none = true ∧ parseIsBuy (some "FALSE") = false ∧
    parseIsBuy (some "pizza") = false ∧ parseIsBuy (some "TrUe") = true :=
  ⟨is_buy_flag_semantics.1,
   is_buy_flag_semantics.2.1 "FALSE" (by decide),
   is_buy_flag_semantics.2.2.1 "pizza" (by decide),
   is_buy_flag_semantics.2.2.2 "TrUe" (by decide)⟩

/-- Claim C3: on an ok response whose first status entry holds a filled
sub-record, the classifier reports filled with the avgPx and totalSz of
that sub-record, each defaulting to the string 0 when absent. -/
theorem filled_classification (resp : PyVal) (fkvs : List (String × PyVal))
    (fill : List (String × PyVal)) (rest : List PyVal)
    (hok : pyGet resp "status" = .ok (some (.str "ok")))
    (hst : getStatuses resp = .ok (.list (.dict fkvs :: rest)))
    (hfill : fkvs.lookup "filled" = some (.dict fill)) :
    parse_order_result resp =
      .ok (.dict [("status", .str "filled"),
        ("avg_price", (fill.lookup "avgPx").getD (.str "0")),
        ("total_size", (fill.lookup "totalSz").getD (.str "0"))]) := by
  simp [parse_order_result, hok, isOkStatus, hst, classifyStatuses, pyTruthy, pyIndex0,
    classifyFirst, pyIn, hfill, pyGetItem, pyGetD]

/-- Claim C3 witness: the spec example of a fill at 67010.5 for size
0.001. -/
theorem filled_classification_app :
    parse_order_result (.dict [("status", .str "ok"),
      ("response", .dict [("data", .dict [("statuses", .list [.dict [("filled",
        .dict [("avgPx", .str "67010.5"), ("totalSz", .str "0.001")])]])])])]) =
      .ok (.dict [("status", .str "filled"), ("avg_price", .str "67010.5"),
        ("total_size", .str "0.001")]) :=
  filled_classification (.dict [("status", .str "ok"),
      ("response", .dict [("data", .dict [("statuses", .list [.dict [("filled",
        .dict [("avgPx", .str "67010.5"), ("totalSz", .str "0.001")])]])])])])
    [("filled", .dict [("avgPx", .str "67010.5"), ("totalSz", .str "0.001")])]
    [("avgPx", .str "67010.5"), ("totalSz", .str "0.001")] [] rfl rfl rfl

/-- Claim C4: on an ok response whose first status entry holds an error
sub-record and neither a filled nor a resting one, the classifier reports
an order_rejected error whose detail is the unmodified error value. -/
theorem order_rejected_classification (resp : PyVal) (fkvs : List (String × PyVal))
    (err : PyVal) (rest : List PyVal)
    (hok : pyGet resp "status" = .ok (some (.str "ok")))
    (hst : getStatuses resp = .ok (.list (.dict fkvs :: rest)))
    (hnf : fkvs.lookup "filled" = none)
    (hnr : fkvs.lookup "resting" = none)
    (herr : fkvs.lookup "error" = some err) :
    parse_order_result resp =
      .ok (.dict [("status", .str "error"), ("step", .str "order_rejected"),
        ("detail", err)]) := by
  simp [parse_order_result, hok, isOkStatus, hst, classifyStatuses, pyTruthy, pyIndex0,
    classifyFirst, pyIn, hnf, hnr, herr, pyGetItem]

/-- Claim C4 witness: the spec example of an exchange rejection with the
message Order could not be fully filled. -/
theorem order_rejected_classification_app :
    parse_order_result (.dict [("status", .str "ok"),
      ("response", .dict [("data", .dict [("statuses", .list [.dict [("error",
        .str "Order could not be fully filled")]])])])]) =
      .ok (.dict [("status", .str "error"), ("step", .str "order_rejected"),
        ("detail", .str "Order could not be fully filled")]) :=
  order_rejected_classification (.dict [("status", .str "ok"),
      ("response", .dict [("data", .dict [("statuses", .list [.dict [("error",
        .str "Order could not be fully filled")]])])])])
    [("error", .str "Order could not be fully filled")]
    (.str "Order could not be fully filled") [] rfl rfl rfl rfl rfl

/-- Claim C5: when the top-level status field of an order response
dictionary is absent or differs from ok, the classifier returns the
place_order error envelope carrying the stringified response, whatever
else the response holds. -/
theorem place_order_error_on_bad_status (kvs : List (String × PyVal))
    (h : kvs.lookup "status" ≠ some (PyVal.str "ok")) :
    parse_order_result (.dict kvs) =
      .ok (.dict [("status", .str "error"), ("step", .str "place_order"),
        ("detail", .str (pyStr (.dict kvs)))]) := by
  have hb : isOkStatus (kvs.lookup "status") = false := by
    cases hB : isOkStatus (kvs.lookup "status") with
    | false => rfl
    | true => exact absurd ((isOkStatus_eq_true_iff _).mp hB) h
  simp [parse_order_result, pyGet, hb]

/-- Claim C5 witness: a response with status err becomes a place_order
error whose detail is the rendering of the whole response. -/
theorem place_order_error_on_bad_status_app :
    parse_order_result (.dict [("status", .str "err"), ("response", .str "broken")]) =
      .ok (.dict [("status", .str "error"), ("step", .str "place_order"),
        ("detail", .str "\x7b\x27status\x27: \x27err\x27, \x27response\x27: \x27broken\x27\x7d")]) :=
  place_order_error_on_bad_status [("status", .str "err"), ("response", .str "broken")]
    (by simp [List.lookup])

/-- Claim C6: an ok response with an empty status list, or whose first
status entry is a dictionary with none of the filled, resting or error
keys, is classified no_fill with a detail field, never as an error. -/
theorem no_fill_classification (resp : PyVal) (l : List PyVal)
    (hok : pyGet resp "status" = .ok (some (.str "ok")))
    (hst : getStatuses resp = .ok (.list l))
    (hsh : l = [] ∨ ∃ fkvs rest, l = PyVal.dict fkvs :: rest ∧
      fkvs.lookup "filled" = none ∧ fkvs.lookup "resting" = none ∧
      fkvs.lookup "error" = none) :
    parse_order_result resp =
      .ok (.dict [("status", .str "no_fill"), ("detail", .str (pyStr (.list l)))]) := by
  rcases hsh with h | ⟨fkvs, rest, hl, hnf, hnr, hne⟩
  · subst h
    simp [parse_order_result, hok, isOkStatus, hst, classifyStatuses, pyTruthy]
  · subst hl
    simp [parse_order_result, hok, isOkStatus, hst, classifyStatuses, pyTruthy, pyIndex0,
      classifyFirst, pyIn, hnf, hnr, hne]

/-- Claim C6 witness: an ok response whose only status entry carries an
unrecognized key is reported as no_fill. -/
theorem no_fill_classification_app :
    parse_order_result (.dict [("status", .str "ok"),
      ("response", .dict [("data", .dict [("statuses",
        .list [.dict [("oops", .str "x")]])])])]) =
      .ok (.dict [("status", .str "no_fill"),
        ("detail", .str "[\x7b\x27oops\x27: \x27x\x27\x7d]")]) :=
  no_fill_classification (.dict [("status", .str "ok"),
      ("response", .dict [("data", .dict [("statuses",
        .list [.dict [("oops", .str "x")]])])])])
    [.dict [("oops", .str "x")]] rfl rfl
    (Or.inr ⟨[("oops", .str "x")], [], rfl, rfl, rfl, rfl⟩)

/-- Claim C10: with top-level status ok, each missing level of the
response, data, statuses chain defaults to an empty container, no
exception is raised, and the result is no_fill with the empty list
rendering as detail. -/
theorem missing_structure_defaults_no_fill (kvs : List (String × PyVal))
    (hok : kvs.lookup "status" = some (PyVal.str "ok"))
    (hmiss : kvs.lookup "response" = none ∨
      (∃ rkvs, kvs.lookup "response" = some (.dict rkvs) ∧ rkvs.lookup "data" = none) ∨
      (∃ rkvs dkvs, kvs.lookup "response" = some (.dict rkvs) ∧
        rkvs.lookup "data" = some (.dict dkvs) ∧ dkvs.lookup "statuses" = none)) :
    parse_order_result (.dict kvs) =
      .ok (.dict [("status", .str "no_fill"), ("detail", .str "[]")]) := by
  have hg : getStatuses (.dict kvs) = .ok (.list []) := by
    rcases hmiss with h | ⟨rkvs, hr, hd⟩ | ⟨rkvs, dkvs, hr, hd, hs⟩
    · simp [getStatuses, pyGetD, h]
    · simp [getStatuses, pyGetD, hr, hd]
    · simp [getStatuses, pyGetD, hr, hd, hs]
  simp [parse_order_result, pyGet, hok, isOkStatus, hg, classifyStatuses, pyTruthy,
    pyStr, pyRepr, pyReprList, joinComma]

/-- Claim C10 witness: a response holding only its ok status is classified
no_fill with the empty list rendering. -/
theorem missing_structure_defaults_no_fill_app :
    parse_order_result (.dict [("status", .str "ok")]) =
      .ok (.dict [("status", .str "no_fill"), ("detail", .str "[]")]) :=
  missing_structure_defaults_no_fill [("status", .str "ok")] rfl (Or.inl rfl)

/-- Claim C1: in seed_trade, a leverage response whose status is not ok
makes the action return exactly the set_leverage error envelope carrying
the stringified leverage response, with no order related fields, and the
order placement call is never made: the call trace holds only the
leverage update. -/
theorem seed_trade_aborts_on_bad_leverage (ex : ExchangeOracle) (lev : PyVal)
    (st : Option PyVal)
    (hc : ex.construct = .ok ())
    (hl : ex.update_leverage = .ok lev)
    (hs : pyGet lev "status" = .ok st)
    (hbad : st ≠ some (.str "ok")) :
    do_seed_trade ex = (.dict [("status", .str "error"), ("step", .str "set_leverage"),
      ("detail", .str (pyStr lev))], [ExCall.updateLeverage]) := by
  have hb : isOkStatus st = false := by
    cases hB : isOkStatus st with
    | false => rfl
    | true => exact absurd ((isOkStatus_eq_true_iff _).mp hB) hbad
  simp [do_seed_trade, hc, hl, hs, hb]

/-- Claim C1 witness: the spec example of an Invalid leverage rejection,
yielding the stringified response as detail with only the leverage call
in the trace. -/
theorem seed_trade_aborts_on_bad_leverage_app :
    do_seed_trade ⟨.ok (), .ok (.dict [("status", .str "err"),
        ("response", .str "Invalid leverage")]), .ok (.dict [])⟩ =
      (.dict [("status", .str "error"), ("step", .str "set_leverage"),
        ("detail",
         .str "\x7b\x27status\x27: \x27err\x27, \x27response\x27: \x27Invalid leverage\x27\x7d")],
       [ExCall.updateLeverage]) :=
  seed_trade_aborts_on_bad_leverage
    ⟨.ok (), .ok (.dict [("status", .str "err"), ("response", .str "Invalid leverage")]),
     .ok (.dict [])⟩
    (.dict [("status", .str "err"), ("response", .str "Invalid leverage")])
    (some (.str "err")) rfl rfl rfl (by simp)

/-- Claim C7: each action catches every exception of client construction
or of a remote call and returns an error envelope whose detail is the
stringified exception, with step exception for seed_trade and
close_position and no step field for set_leverage; no exception escapes
an action, since each action is a total function into result envelopes. -/
theorem actions_catch_exceptions :
    (∀ (ex : ExchangeOracle) (e : String), ex.construct = .error e →
      do_set_leverage ex = (.dict [("status", .str "error"), ("detail", .str e)], []) ∧
      do_seed_trade ex = (excResult e, []) ∧
      do_close_position ex = (excResult e, [])) ∧
    (∀ (ex : ExchangeOracle) (e : String), ex.construct = .ok () →
      ex.update_leverage = .error e →
      do_set_leverage ex = (.dict [("status", .str "error"), ("detail", .str e)],
        [ExCall.updateLeverage]) ∧
      do_seed_trade ex = (excResult e, [ExCall.updateLeverage])) ∧
    (∀ (ex : ExchangeOracle) (e : String) (lev : PyVal), ex.construct = .ok () →
      ex.update_leverage = .ok lev → pyGet lev "status" = .ok (some (.str "ok")) →
      ex.order = .error e →
      do_seed_trade ex = (excResult e, [ExCall.updateLeverage, ExCall.placeOrder])) ∧
    (∀ (ex : ExchangeOracle) (e : String), ex.construct = .ok () → ex.order = .error e →
      do_close_position ex = (excResult e, [ExCall.placeOrder])) := by
  refine ⟨?_, ?_, ?_, ?_⟩
  · intro ex e h
    exact ⟨by simp [do_set_leverage, h], by simp [do_seed_trade, h],
      by simp [do_close_position, h]⟩
  · intro ex e hc hl
    exact ⟨by simp [do_set_leverage, hc, hl], by simp [do_seed_trade, hc, hl]⟩
  · intro ex e lev hc hl hs ho
    simp [do_seed_trade, hc, hl, hs, isOkStatus, ho]
  · intro ex e hc ho
    simp [do_close_position, hc, ho]

/-- Claim C7 witness: a failing construction in set_leverage, a failing
order call in seed_trade after an ok leverage update, and a failing order
call in close_position, each caught into the documented envelope. -/
theorem actions_catch_exceptions_app :
    do_set_leverage ⟨.error "boom", .ok (.dict []), .ok (.dict [])⟩ =
      (.dict [("status", .str "error"), ("detail", .str "boom")], []) ∧
    do_seed_trade ⟨.ok (), .ok (.dict [("status", .str "ok")]), .error "netdown"⟩ =
      (excResult "netdown", [ExCall.updateLeverage, ExCall.placeOrder]) ∧
    do_close_position ⟨.ok (), .ok (.dict []), .error "refused"⟩ =
      (excResult "refused", [ExCall.placeOrder]) :=
  ⟨(actions_catch_exceptions.1 ⟨.error "boom", .ok (.dict []), .ok (.dict [])⟩ "boom" rfl).1,
   actions_catch_exceptions.2.2.1 ⟨.ok (), .ok (.dict [("status", .str "ok")]), .error "netdown"⟩
     "netdown" (.dict [("status", .str "ok")]) rfl rfl rfl rfl,
   actions_catch_exceptions.2.2.2 ⟨.ok (), .ok (.dict []), .error "refused"⟩ "refused" rfl rfl⟩

/-- The classification verdict on a nonempty statuses list is unchanged by
the entries after the first. -/
theorem verdict_classifyStatuses_tail (e : PyVal) (t1 t2 : List PyVal) :
    verdict (classifyStatuses (.list (e :: t1))) =
      verdict (classifyStatuses (.list (e :: t2))) := by
  simp only [classifyStatuses, pyTruthy, List.isEmpty_cons, Bool.not_false, if_true, pyIndex0]
  unfold classifyFirst
  split_ifs <;> simp [verdict, List.lookup]

/-- Claim C8: two responses agreeing on their top-level status field and
on the first entry of their status lists receive the same verdict among
filled, resting, error with order_rejected, no_fill and error with
place_order; entries after the first never change the verdict. -/
theorem verdict_depends_on_first_entry (r1 r2 : PyVal) (st : Option PyVal)
    (e : PyVal) (t1 t2 : List PyVal)
    (h1 : pyGet r1 "status" = .ok st) (h2 : pyGet r2 "status" = .ok st)
    (hs1 : getStatuses r1 = .ok (.list (e :: t1)))
    (hs2 : getStatuses r2 = .ok (.list (e :: t2))) :
    verdict (parse_order_result r1) = verdict (parse_order_result r2) := by
  by_cases hok : isOkStatus st = true
  · have e1 : parse_order_result r1 = classifyStatuses (.list (e :: t1)) := by
      simp [parse_order_result, h1, hok, hs1]
    have e2 : parse_order_result r2 = classifyStatuses (.list (e :: t2)) := by
      simp [parse_order_result, h2, hok, hs2]
    rw [e1, e2]
    exact verdict_classifyStatuses_tail e t1 t2
  · rw [Bool.not_eq_true] at hok
    simp [parse_order_result, h1, h2, hok, verdict, List.lookup]

/-- Claim C8 witness: appending a filled entry after a resting first entry
leaves the verdict unchanged. -/
theorem verdict_depends_on_first_entry_app :
    verdict (parse_order_result (.dict [("status", .str "ok"),
      ("response", .dict [("data", .dict [("statuses",
        .list [.dict [("resting", .dict [("oid", .str "77")])]])])])])) =
    verdict (parse_order_result (.dict [("status", .str "ok"),
      ("response", .dict [("data", .dict [("statuses",
        .list [.dict [("resting", .dict [("oid", .str "77")])],
          .dict [("filled", .dict [])]])])])])) :=
  verdict_depends_on_first_entry
    (.dict [("status", .str "ok"),
      ("response", .dict [("data", .dict [("statuses",
        .list [.dict [("resting", .dict [("oid", .str "77")])]])])])])
    (.dict [("status", .str "ok"),
      ("response", .dict [("data", .dict [("statuses",
        .list [.dict [("resting", .dict [("oid", .str "77")])],
          .dict [("filled", .dict [])]])])])])
    (some (.str "ok")) (.dict [("resting", .dict [("oid", .str "77")])])
    [] [.dict [("filled", .dict [])]] rfl rfl rfl rfl

/-- Every member of a list of strings occurs inside their comma join. -/
theorem joinComma_infix (x : String) (l : List String) (hx : x ∈ l) :
    x.data <:+: (joinComma l).data := by
  induction l with
  | nil => cases hx
  | cons y ys ih =>
    cases ys with
    | nil =>
      rw [List.mem_singleton.mp hx]
      exact List.infix_refl _
    | cons z zs =>
      rcases List.mem_cons.mp hx with rfl | hx'
      · refine ⟨[], (", " ++ joinComma (z :: zs)).data, ?_⟩
        simp [joinComma, String.data_append]
      · have h1 : x.data <:+: (joinComma (z :: zs)).data := ih hx'
        have h2 : (joinComma (z :: zs)).data <:+: (joinComma (y :: z :: zs)).data := by
          refine ⟨(y ++ ", ").data, [], ?_⟩
          simp [joinComma, String.data_append]
        exact h1.trans h2

/-- The rendering of a member of a list occurs among the renderings of the
list. -/
theorem pyRepr_mem_pyReprList (x : PyVal) (l : List PyVal) (hx : x ∈ l) :
    pyRepr x ∈ pyReprList l := by
  induction l with
  | nil => cases hx
  | cons y ys ih =>
    rcases List.mem_cons.mp hx with rfl | hx'
    · simp [pyReprList]
    · simp [pyReprList]
      exact Or.inr (ih hx')

/-- Claim C9: in the no_fill branch the detail is the str rendering of the
whole statuses list, so the rendering of every entry after the first
occurs inside the emitted detail even though those entries do not affect
the verdict. -/
theorem no_fill_detail_renders_all_entries (resp : PyVal)
    (fkvs : List (String × PyVal)) (rest : List PyVal)
    (hok : pyGet resp "status" = .ok (some (.str "ok")))
    (hst : getStatuses resp = .ok (.list (.dict fkvs :: rest)))
    (hnf : fkvs.lookup "filled" = none) (hnr : fkvs.lookup "resting" = none)
    (hne : fkvs.lookup "error" = none) :
    parse_order_result resp = .ok (.dict [("status", .str "no_fill"),
      ("detail", .str (pyStr (.list (.dict fkvs :: rest))))]) ∧
    ∀ x ∈ rest, (pyRepr x).data <:+: (pyStr (.list (.dict fkvs :: rest))).data := by
  constructor
  · simp [parse_order_result, hok, isOkStatus, hst, classifyStatuses, pyTruthy, pyIndex0,
      classifyFirst, pyIn, hnf, hnr, hne]
  · intro x hx
    have h1 : (pyRepr x).data <:+: (joinComma (pyReprList (.dict fkvs :: rest))).data :=
      joinComma_infix _ _ (pyRepr_mem_pyReprList _ _ (List.mem_cons_of_mem _ hx))
    have h2 : pyStr (.list (.dict fkvs :: rest)) =
        "[" ++ joinComma (pyReprList (.dict fkvs :: rest)) ++ "]" := rfl
    rw [h2]
    obtain ⟨s, t, hmid⟩ := h1
    refine ⟨"[".data ++ s, t ++ "]".data, ?_⟩
    simp [String.data_append, ← hmid]

/-- Claim C9 witness: with two unrecognized status entries the result is
no_fill, the detail renders the whole list, and the rendering of the
second entry occurs inside it. -/
theorem no_fill_detail_renders_all_entries_app :
    parse_order_result (.dict [("status", .str "ok"),
      ("response", .dict [("data", .dict [("statuses",
        .list [.dict [("weird", .str "x")], .dict [("extra", .str "y")]])])])]) =
      .ok (.dict [("status", .str "no_fill"),
        ("detail", .str (pyStr (.list [.dict [("weird", .str "x")],
          .dict [("extra", .str "y")]])))]) ∧
    (pyRepr (.dict [("extra", .str "y")])).data <:+:
      (pyStr (.list [.dict [("weird", .str "x")], .dict [("extra", .str "y")]])).data :=
  ⟨(no_fill_detail_renders_all_entries (.dict [("status", .str "ok"),
      ("response", .dict [("data", .dict [("statuses",
        .list [.dict [("weird", .str "x")], .dict [("extra", .str "y")]])])])])
      [("weird", .str "x")] [.dict [("extra", .str "y")]] rfl rfl rfl rfl rfl).1,
   (no_fill_detail_renders_all_entries (.dict [("status", .str "ok"),
      ("response", .dict [("data", .dict [("statuses",
        .list [.dict [("weird", .str "x")], .dict [("extra", .str "y")]])])])])
      [("weird", .str "x")] [.dict [("extra", .str "y")]] rfl rfl rfl rfl rfl).2
     (.dict [("extra", .str "y")]) (by simp)⟩

end HL
